import Mathlib

/-!
Verification of the futures position-size calculator (src/app.py).

The numeric quantities (dollar risk, stop-loss points, point values,
account balance) are modelled as exact rationals; contract counts, which
Python produces via math.floor followed by int(), are modelled as
integers.  Each definition below embeds the corresponding source
function or inline calculation.
-/

namespace Riskbot

/-- Asset specifications from src/app.py lines 14-18: ticker mapped to
point value (multiplier). -/
def ASSETS : List (String × ℚ) :=
  [("MES (Micro S&P 500)", 5),
   ("MNQ (Micro Nasdaq 100)", 2),
   ("MGC (Micro Gold)", 10)]

/-- Embedding of calculate_position_size (src/app.py lines 20-32):
if stop_loss_points <= 0 or point_value <= 0, return (0, 0.0);
otherwise risk_per_contract = stop_loss_points * point_value and
num_contracts = floor(total_risk_dollars / risk_per_contract). -/
def calculate_position_size
    (total_risk_dollars stop_loss_points point_value : ℚ) : ℤ × ℚ :=
  if stop_loss_points ≤ 0 ∨ point_value ≤ 0 then (0, 0)
  else
    let risk_per_contract := stop_loss_points * point_value
    (⌊total_risk_dollars / risk_per_contract⌋, risk_per_contract)

/-- Embedding of the inline calculation at src/app.py line 65:
actual_risk = contracts * risk_per_contract. -/
def actual_risk (contracts : ℤ) (risk_per_contract : ℚ) : ℚ :=
  (contracts : ℚ) * risk_per_contract

/-- Embedding of the inline calculation at src/app.py line 79:
risk_pct = (actual_risk / account_balance) * 100. -/
def risk_pct (actual_risk_value account_balance : ℚ) : ℚ :=
  actual_risk_value / account_balance * 100

/-- Constant from src/app.py line 84. -/
def RISK_WARNING_THRESHOLD : ℚ := 2

/-- The three advisory outcomes of the if/elif/else at
src/app.py lines 86-92: st.error, st.warning, st.success. -/
inductive Classification where
  | OverThreshold : Classification
  | ZeroContracts : Classification
  | Acceptable : Classification
deriving DecidableEq

/-- Embedding of the branch structure at src/app.py lines 86-92:
first test risk_pct > RISK_WARNING_THRESHOLD, then contracts == 0,
else the success branch. -/
def classify (contracts : ℤ) (risk_pct_value : ℚ) : Classification :=
  if risk_pct_value > RISK_WARNING_THRESHOLD then Classification.OverThreshold
  else if contracts = 0 then Classification.ZeroContracts
  else Classification.Acceptable

/-- Embedding of the per-multiple calculation at src/app.py line 100:
target_points = stop_loss_points * r_multiple. -/
def target_points (stop_loss_points : ℚ) (r_multiple : ℤ) : ℚ :=
  stop_loss_points * (r_multiple : ℚ)

/-- Embedding of the per-multiple calculation at src/app.py line 101:
potential_profit = contracts * target_points * point_value. -/
def potential_profit
    (contracts : ℤ) (stop_loss_points point_value : ℚ) (r_multiple : ℤ) : ℚ :=
  (contracts : ℚ) * target_points stop_loss_points r_multiple * point_value

/-- One row of the scenarios table built at src/app.py lines 102-106,
carrying the numeric values behind the formatted strings. -/
structure ProfitScenario where
  reward_multiple : ℤ
  target : ℚ
  profit : ℚ
deriving DecidableEq

/-- Embedding of the loop at src/app.py lines 98-106: one scenario row
appended per reward multiple, in the order of the multiples list. -/
def scenarios
    (contracts : ℤ) (stop_loss_points point_value : ℚ)
    (multiples : List ℤ) : List ProfitScenario :=
  multiples.map (fun r =>
    { reward_multiple := r
      target := target_points stop_loss_points r
      profit := potential_profit contracts stop_loss_points point_value r })

/-- The record the calculation pass leaves for display. -/
structure DisplayRecord where
  contracts : ℤ
  risk_per_contract : ℚ
  actual_risk_value : ℚ
  risk_pct_value : ℚ
  classification_value : Classification
  scenario_rows : List ProfitScenario

/-- Embedding of the single recomputation pass of src/app.py
lines 64-108: size the position, derive actual risk and risk percent,
classify, and build the scenarios table (suppressed when
contracts <= 0, per the guard at line 95). -/
def runPipeline
    (account_balance risk_dollars stop_loss_points point_value : ℚ) :
    DisplayRecord :=
  let res := calculate_position_size risk_dollars stop_loss_points point_value
  let contracts := res.1
  let risk_per_contract := res.2
  let ar := actual_risk contracts risk_per_contract
  let rp := risk_pct ar account_balance
  { contracts := contracts
    risk_per_contract := risk_per_contract
    actual_risk_value := ar
    risk_pct_value := rp
    classification_value := classify contracts rp
    scenario_rows :=
      if 0 < contracts then
        scenarios contracts stop_loss_points point_value [1, 2, 3]
      else [] }

/-- C1: no over-risk.  For every totalRiskDollars and all
stopLossPoints > 0 and pointValue > 0, the contracts returned by
calculate_position_size satisfy
contracts * stopLossPoints * pointValue <= totalRiskDollars. -/
theorem no_over_risk (t s p : ℚ) (hs : 0 < s) (hp : 0 < p) :
    ((calculate_position_size t s p).1 : ℚ) * s * p ≤ t := by
  have hr : (0 : ℚ) < s * p := mul_pos hs hp
  have hcond : ¬ (s ≤ 0 ∨ p ≤ 0) := by push_neg; exact ⟨hs, hp⟩
  simp only [calculate_position_size, if_neg hcond]
  calc ((⌊t / (s * p)⌋ : ℚ)) * s * p
      = (⌊t / (s * p)⌋ : ℚ) * (s * p) := by ring
    _ ≤ t / (s * p) * (s * p) :=
        mul_le_mul_of_nonneg_right (Int.floor_le _) hr.le
    _ = t := div_mul_cancel₀ t hr.ne'

/-- Witness for C1 at scenario 3 of the spec: 300 dollars risk, 12-point
stop, point value 10 gives 2 contracts risking 240 <= 300. -/
theorem no_over_risk_witness :
    ((calculate_position_size 300 12 10).1 : ℚ) * 12 * 10 ≤ 300 :=
  no_over_risk 300 12 10 (by norm_num) (by norm_num)

/-- C3: maximality.  For totalRiskDollars >= 0, stopLossPoints > 0 and
pointValue > 0, one more contract than returned would exceed the
budget: (contracts + 1) * stopLossPoints * pointValue > totalRiskDollars. -/
theorem sizer_maximality (t s p : ℚ) (ht : 0 ≤ t) (hs : 0 < s) (hp : 0 < p) :
    t < (((calculate_position_size t s p).1 : ℚ) + 1) * s * p := by
  have hr : (0 : ℚ) < s * p := mul_pos hs hp
  have hcond : ¬ (s ≤ 0 ∨ p ≤ 0) := by push_neg; exact ⟨hs, hp⟩
  simp only [calculate_position_size, if_neg hcond]
  have hlt : t / (s * p) < (⌊t / (s * p)⌋ : ℚ) + 1 := Int.lt_floor_add_one _
  calc t = t / (s * p) * (s * p) := (div_mul_cancel₀ t hr.ne').symm
    _ < ((⌊t / (s * p)⌋ : ℚ) + 1) * (s * p) :=
        mul_lt_mul_of_pos_right hlt hr
    _ = ((⌊t / (s * p)⌋ : ℚ) + 1) * s * p := by ring

/-- Witness for C3 at scenario 3 of the spec: with 2 contracts sized,
3 contracts would risk 360 > 300. -/
theorem sizer_maximality_witness :
    (300 : ℚ) < (((calculate_position_size 300 12 10).1 : ℚ) + 1) * 12 * 10 :=
  sizer_maximality 300 12 10 (by norm_num) (by norm_num) (by norm_num)

/-- C4: degenerate-input fallback.  If stopLossPoints <= 0 or
pointValue <= 0 the sizer returns exactly (0, 0.0), regardless of
totalRiskDollars. -/
theorem degenerate_fallback (t s p : ℚ) (h : s ≤ 0 ∨ p ≤ 0) :
    calculate_position_size t s p = (0, 0) := by
  simp only [calculate_position_size, if_pos h]

/-- Witness for C4: a zero stop distance yields the (0, 0) fallback. -/
theorem degenerate_fallback_witness :
    calculate_position_size 300 0 5 = (0, 0) :=
  degenerate_fallback 300 0 5 (Or.inl le_rfl)

/-- C2 counterexample: the claim says a negative totalRiskDollars
yields 0 contracts, but calculate_position_size has no max(0, _) clamp:
at totalRiskDollars = -10, stopLossPoints = 1, pointValue = 1 it
returns -10 contracts, not 0. -/
theorem no_clamp_counterexample :
    (-10 : ℚ) < 0 ∧ (calculate_position_size (-10) 1 1).1 = -10 := by
  constructor
  · norm_num
  · have hcond : ¬ ((1 : ℚ) ≤ 0 ∨ (1 : ℚ) ≤ 0) := by norm_num
    simp only [calculate_position_size, if_neg hcond]
    norm_num

/-- C2 amended: for stopLossPoints > 0 and pointValue > 0 the sizer
returns floor(totalRiskDollars / (stopLossPoints * pointValue)) with no
lower clamp; the count is non-negative whenever totalRiskDollars >= 0,
but a negative totalRiskDollars yields the negative floor. -/
theorem sizer_floor_no_clamp (t s p : ℚ) (hs : 0 < s) (hp : 0 < p) :
    (calculate_position_size t s p).1 = ⌊t / (s * p)⌋ ∧
    (0 ≤ t → 0 ≤ (calculate_position_size t s p).1) := by
  have hr : (0 : ℚ) < s * p := mul_pos hs hp
  have hcond : ¬ (s ≤ 0 ∨ p ≤ 0) := by push_neg; exact ⟨hs, hp⟩
  simp only [calculate_position_size, if_neg hcond]
  refine ⟨trivial, fun ht => ?_⟩
  exact Int.floor_nonneg.mpr (div_nonneg ht hr.le)

/-- Witness for the amended C2 at scenario 1 of the spec:
300 / (12 * 5) floors to 5 contracts, a non-negative count. -/
theorem sizer_floor_no_clamp_witness :
    (calculate_position_size 300 12 5).1 = ⌊(300 : ℚ) / (12 * 5)⌋ ∧
    0 ≤ (calculate_position_size 300 12 5).1 := by
  have h := sizer_floor_no_clamp 300 12 5 (by norm_num) (by norm_num)
  exact ⟨h.1, h.2 (by norm_num)⟩

/-- C5: classification precedence.  The advisory branch is
OverThreshold whenever riskPercent > 2.0 (even with 0 contracts);
otherwise ZeroContracts when contracts = 0; otherwise Acceptable —
first match wins and the three outcomes are mutually exclusive. -/
theorem classification_precedence (c : ℤ) (r : ℚ) :
    (r > RISK_WARNING_THRESHOLD →
      classify c r = Classification.OverThreshold) ∧
    (¬ r > RISK_WARNING_THRESHOLD → c = 0 →
      classify c r = Classification.ZeroContracts) ∧
    (¬ r > RISK_WARNING_THRESHOLD → c ≠ 0 →
      classify c r = Classification.Acceptable) := by
  refine ⟨fun h => ?_, fun h hc => ?_, fun h hc => ?_⟩
  · simp only [classify, if_pos h]
  · simp only [classify, if_neg h, if_pos hc]
  · simp only [classify, if_neg h, if_neg hc]

/-- Witness for C5: riskPercent 3 with 0 contracts is OverThreshold;
riskPercent 1 with 0 contracts is ZeroContracts; riskPercent 1 with
2 contracts is Acceptable. -/
theorem classification_precedence_witness :
    classify 0 3 = Classification.OverThreshold ∧
    classify 0 1 = Classification.ZeroContracts ∧
    classify 2 1 = Classification.Acceptable :=
  ⟨(classification_precedence 0 3).1 (by norm_num [RISK_WARNING_THRESHOLD]),
   (classification_precedence 0 1).2.1
     (by norm_num [RISK_WARNING_THRESHOLD]) rfl,
   (classification_precedence 2 1).2.2
     (by norm_num [RISK_WARNING_THRESHOLD]) (by decide)⟩

/-- C6: scenario monotonicity.  For fixed contracts > 0 produced from
stopLossPoints > 0 and pointValue > 0, potentialProfit is strictly
increasing in the reward multiple. -/
theorem scenario_monotone (c : ℤ) (s p : ℚ) (r1 r2 : ℤ)
    (hc : 0 < c) (hs : 0 < s) (hp : 0 < p) (hr : r1 < r2) :
    potential_profit c s p r1 < potential_profit c s p r2 := by
  have hcq : (0 : ℚ) < (c : ℚ) := by exact_mod_cast hc
  have hrq : (r1 : ℚ) < (r2 : ℚ) := by exact_mod_cast hr
  simp only [potential_profit, target_points]
  have h1 : s * (r1 : ℚ) < s * (r2 : ℚ) := by
    exact mul_lt_mul_of_pos_left hrq hs
  have h2 : (c : ℚ) * (s * (r1 : ℚ)) < (c : ℚ) * (s * (r2 : ℚ)) :=
    mul_lt_mul_of_pos_left h1 hcq
  exact mul_lt_mul_of_pos_right h2 hp

/-- Witness for C6 at scenario 6 of the spec: with 5 contracts, 12-point
stop and point value 5, the 1:1 profit 300 is below the 1:2 profit 600. -/
theorem scenario_monotone_witness :
    potential_profit 5 12 5 1 < potential_profit 5 12 5 2 :=
  scenario_monotone 5 12 5 1 2 (by norm_num) (by norm_num) (by norm_num)
    (by norm_num)

/-- C7: scenario order preservation.  The scenarios list has one entry
per reward multiple, in the same order as the multiples list, each
carrying targetPoints = stopLossPoints * r and
potentialProfit = contracts * targetPoints * pointValue. -/
theorem scenario_order (c : ℤ) (s p : ℚ) (ms : List ℤ) :
    (scenarios c s p ms).length = ms.length ∧
    ∀ i r, ms.get? i = some r →
      (scenarios c s p ms).get? i =
        some { reward_multiple := r
               target := s * (r : ℚ)
               profit := (c : ℚ) * (s * (r : ℚ)) * p } := by
  constructor
  · simp [scenarios]
  · intro i r hir
    simp only [scenarios, List.get?_eq_getElem?, List.getElem?_map] at hir ⊢
    simp only [hir, Option.map_some]
    simp [target_points, potential_profit]

/-- Witness for C7 at scenario 6 of the spec: the middle row of
scenarios 5 12 5 [1, 2, 3] is the multiple 2 with target 24 and
profit 600, and the list has three rows. -/
theorem scenario_order_witness :
    (scenarios 5 12 5 [1, 2, 3]).length = 3 ∧
    (scenarios 5 12 5 [1, 2, 3]).get? 1 =
      some { reward_multiple := 2, target := (12 : ℚ) * (2 : ℚ),
             profit := ((5 : ℤ) : ℚ) * ((12 : ℚ) * (2 : ℚ)) * 5 } :=
  ⟨(scenario_order 5 12 5 [1, 2, 3]).1,
   (scenario_order 5 12 5 [1, 2, 3]).2 1 2 rfl⟩

/-- C8: balance noninterference.  Two pipeline runs with identical
totalRiskDollars, stopLossPoints and pointValue but different account
balances return the same contracts count; the balance only enters
riskPercent = actualRisk / balance * 100. -/
theorem balance_noninterference (b1 b2 t s p : ℚ) :
    (runPipeline b1 t s p).contracts = (runPipeline b2 t s p).contracts ∧
    (runPipeline b1 t s p).risk_pct_value =
      (runPipeline b1 t s p).actual_risk_value / b1 * 100 :=
  ⟨rfl, rfl⟩

/-- C9: the 1:1 scenario equals the actual risk.  Whenever the sizer
returns contracts > 0, the potential profit at reward multiple 1 equals
contracts * riskPerContract. -/
theorem one_to_one_profit_eq_actual_risk (t s p : ℚ)
    (hc : 0 < (calculate_position_size t s p).1) :
    potential_profit (calculate_position_size t s p).1 s p 1 =
      actual_risk (calculate_position_size t s p).1
        (calculate_position_size t s p).2 := by
  by_cases h : s ≤ 0 ∨ p ≤ 0
  · simp only [calculate_position_size, if_pos h] at hc
    exact absurd hc (by norm_num)
  · simp only [calculate_position_size, if_neg h,
      potential_profit, target_points, actual_risk]
    push_cast
    ring

/-- Witness for C9 at scenario 1 of the spec: 5 contracts sized at
300 / (12 * 5); the 1:1 profit equals the 300-dollar actual risk. -/
theorem one_to_one_profit_eq_actual_risk_witness :
    potential_profit (calculate_position_size 300 12 5).1 12 5 1 =
      actual_risk (calculate_position_size 300 12 5).1
        (calculate_position_size 300 12 5).2 :=
  one_to_one_profit_eq_actual_risk 300 12 5
    (by norm_num [calculate_position_size])

/-- C10: zero contracts forces the ZeroContracts outcome.  With a
positive account balance, whenever the pipeline sizes 0 contracts the
derived actual risk and risk percent are 0, so the OverThreshold branch
cannot fire and the classification is ZeroContracts. -/
theorem zero_contracts_forces_zero (b t s p : ℚ) (hb : 0 < b)
    (h0 : (runPipeline b t s p).contracts = 0) :
    (runPipeline b t s p).actual_risk_value = 0 ∧
    (runPipeline b t s p).risk_pct_value = 0 ∧
    (runPipeline b t s p).classification_value =
      Classification.ZeroContracts := by
  have hc : (calculate_position_size t s p).1 = 0 := h0
  refine ⟨?_, ?_, ?_⟩ <;>
    simp [runPipeline, actual_risk, risk_pct, classify,
      RISK_WARNING_THRESHOLD, hc]

/-- Witness for C10 at scenario 4 of the spec: a 50-dollar budget with a
60-dollar per-contract risk sizes 0 contracts and classifies as
ZeroContracts at balance 25000. -/
theorem zero_contracts_forces_zero_witness :
    (runPipeline 25000 50 12 5).actual_risk_value = 0 ∧
    (runPipeline 25000 50 12 5).risk_pct_value = 0 ∧
    (runPipeline 25000 50 12 5).classification_value =
      Classification.ZeroContracts :=
  zero_contracts_forces_zero 25000 50 12 5 (by norm_num)
    (by norm_num [runPipeline, calculate_position_size])

end Riskbot
